import Mathlib

/-!
Verification of the StardustXR wayland core (src/wayland/mod.rs): a shallow
embedding of `get_sk_egl`, `Wayland::new`, `Wayland::start_loop`'s select
body, `Wayland::update`, the `SERIAL_COUNTER`, and the bounded
global-destroy mpsc channel, with theorems about the spec's claims.
-/

set_option linter.unusedVariables false

namespace Stardust

/-- Opaque smithay global identifiers (`GlobalId`), modelled as naturals. -/
abbrev GlobalId := Nat

/-- Opaque wayland client identifiers (`ClientId`), modelled as naturals. -/
abbrev ClientId := Nat

/-- Observable effects of the wayland core, recorded as traces. -/
inductive Action where
  | processSurface (s : Nat)
  | flushClients
  | dispatchClients
  | removeGlobal (g : GlobalId)
  | insertClient (c : ClientId)
  | newClientNotify (c : ClientId)
  | frameSurface (s : Nat)
deriving DecidableEq, Repr

/-- Model of `global_counter::primitive::exact::CounterU32`: a wrapping
unsigned 32-bit counter. -/
structure CounterU32 where
  value : Nat
deriving DecidableEq, Repr

/-- The u32 modulus. -/
def u32Mod : Nat := 2 ^ 32

/-- The static `SERIAL_COUNTER = CounterU32::new(0)`. -/
def SERIAL_COUNTER : CounterU32 := ⟨0⟩

/-- Fetch-and-increment: returns the current value and increments the
counter, wrapping modulo `2^32`. -/
def CounterU32.inc (c : CounterU32) : Nat × CounterU32 :=
  (c.value, ⟨(c.value + 1) % u32Mod⟩)

/-- The list of values returned by `n` successive fetch-and-increment calls
starting from counter state `c`. -/
def CounterU32.serials (c : CounterU32) : Nat → List Nat
  | 0 => []
  | n + 1 => (c.inc).1 :: CounterU32.serials (c.inc).2 n

/-- Modelled from the spec: a tokio bounded mpsc channel is a FIFO buffer
with a fixed capacity. -/
structure Channel (α : Type) where
  capacity : Nat
  buffer : List α
deriving DecidableEq, Repr

/-- The conceivable outcomes of a send on a bounded channel. -/
inductive SendResult (α : Type) where
  | sent (ch : Channel α)
  | blocked
  | dropped
  | errored
deriving DecidableEq, Repr

/-- Modelled from the spec: a tokio mpsc send suspends the producer when the
buffer is full; it never drops the message and never fails while the
receiver lives. -/
def Channel.send {α : Type} (ch : Channel α) (a : α) : SendResult α :=
  if ch.buffer.length < ch.capacity then
    SendResult.sent ⟨ch.capacity, ch.buffer ++ [a]⟩
  else
    SendResult.blocked

/-- Modelled from the spec: a tokio mpsc recv takes the oldest buffered
message, if any. -/
def Channel.recv {α : Type} (ch : Channel α) : Option (α × Channel α) :=
  match ch.buffer with
  | [] => none
  | a :: rest => some (a, ⟨ch.capacity, rest⟩)

/-- Send a whole list in order; `none` if any send would block. -/
def Channel.sendAll {α : Type} (ch : Channel α) : List α → Option (Channel α)
  | [] => some ch
  | a :: as =>
    match ch.send a with
    | SendResult.sent ch' => ch'.sendAll as
    | _ => none

/-- The fresh global-destroy queue of `Wayland::new`: `mpsc::channel(8)`. -/
def globalDestroyChannel : Channel GlobalId := { capacity := 8, buffer := [] }

/-- Registry and client table of the mutex-guarded display state, as the
dispatch loop and the frame calls observe them. -/
structure LoopState where
  globals : List GlobalId
  clients : List ClientId
deriving DecidableEq, Repr

/-- One readiness event of the `tokio::select!` in `Wayland::start_loop`,
carrying the outcomes of the fallible external calls inside that branch:
`connection` holds the result of `accept` and whether `insert_client`
succeeds; `dispatchReady` holds whether the readiness guard, the
`dispatch_clients` round and the `flush_clients` call succeed. -/
inductive LoopEvent where
  | destroyReady (g : GlobalId)
  | connection (accept : Except String ClientId) (insertOk : Bool)
  | dispatchReady (readyOk : Bool) (dispatchOk : Bool) (flushOk : Bool)

/-- One iteration of the select body in `Wayland::start_loop`. Failures
propagated by the question-mark operator become `Except.error`. -/
def loopStep (s : LoopState) : LoopEvent → Except String (LoopState × List Action)
  | LoopEvent.destroyReady g =>
    Except.ok ({ s with globals := s.globals.erase g }, [Action.removeGlobal g])
  | LoopEvent.connection acc insertOk =>
    match acc with
    | Except.error e => Except.error e
    | Except.ok c =>
      if insertOk then
        Except.ok ({ s with clients := s.clients ++ [c] },
          [Action.insertClient c, Action.newClientNotify c])
      else
        Except.error "insert_client failed"
  | LoopEvent.dispatchReady readyOk dispatchOk flushOk =>
    if !readyOk then Except.error "dispatch poll readiness failed"
    else if !dispatchOk then Except.error "dispatch_clients failed"
    else if !flushOk then Except.error "flush_clients failed"
    else Except.ok (s, [Action.dispatchClients, Action.flushClients])

/-- Run the dispatch loop over a sequence of readiness events. The third
component is `some err` exactly when a branch error propagated out and
terminated the loop; events after the failing one are never processed. -/
def runLoop (s : LoopState) : List LoopEvent → LoopState × List Action × Option String
  | [] => (s, [], none)
  | e :: es =>
    match loopStep s e with
    | Except.error err => (s, [], some err)
    | Except.ok (s', as) =>
      let r := runLoop s' es
      (r.1, as ++ r.2.1, r.2.2)

/-- Model of `Wayland::update`: iterate the currently valid core surfaces uploading
committed buffer content, then `flush_clients().unwrap()`. Returns the
action trace and `none` when the flush unwrap panics. -/
def update (validSurfaces : List Nat) (flushResult : Except String Unit) :
    List Action × Option Unit :=
  let trace := validSurfaces.map Action.processSurface ++ [Action.flushClients]
  match flushResult with
  | Except.ok _ => (trace, some ())
  | Except.error _ => (trace, none)

/-- The stereokit graphics backend family (`sk::sys::backend_graphics_`). -/
inductive BackendGraphics where
  | noBackend
  | d3d11
  | opengl_wgl
  | opengles_egl
  | webgl
deriving DecidableEq, Repr

/-- The stereokit host as seen by `get_sk_egl`: the active backend family
and the three raw EGL handles (opaque pointers modelled as naturals). -/
structure SkHost where
  backend_graphics : BackendGraphics
  egl_display : Nat
  egl_config : Nat
  egl_context : Nat
deriving DecidableEq, Repr

/-- The `EGLRawHandles` struct. -/
structure EGLRawHandles where
  display : Nat
  config : Nat
  context : Nat
deriving DecidableEq, Repr

/-- Model of `get_sk_egl`: ensure the backend is EGL/GLES, then read the three raw
handles from the host. -/
def get_sk_egl (sk : SkHost) : Except String EGLRawHandles :=
  if sk.backend_graphics = BackendGraphics.opengles_egl then
    Except.ok { display := sk.egl_display, config := sk.egl_config, context := sk.egl_context }
  else
    Except.error "StereoKit is not running using EGL!"

/-- Modelled from the spec: smithay's `ListeningSocket::bind_auto` tries
candidate socket names `basename-i` for successive `i`, stopping at the
first that binds and failing once the range is exhausted. -/
def bind_auto_from (basename : String) (canBind : Nat → Bool) : Nat → Nat → Except String String
  | _, 0 => Except.error "exhausted socket name range"
  | i, fuel + 1 =>
    if canBind i then Except.ok (basename ++ "-" ++ toString i)
    else bind_auto_from basename canBind (i + 1) fuel

/-- Model of `ListeningSocket::bind_auto(basename, 0..rangeLen)`. -/
def bind_auto (basename : String) (rangeLen : Nat) (canBind : Nat → Bool) : Except String String :=
  bind_auto_from basename canBind 0 rangeLen

/-- The outcomes of a construction attempt: a value, an error returned to
the caller, or a panic. -/
inductive Outcome (α : Type) where
  | ok (val : α)
  | error (msg : String)
  | panic (msg : String)
deriving DecidableEq, Repr

/-- The external world `Wayland::new` interacts with: the stereokit host
and the outcomes of each fallible external call it makes. -/
structure Env where
  sk : SkHost
  eglContextOk : Bool
  glesRendererOk : Bool
  displayNewOk : Bool
  canBind : Nat → Bool
  startLoopOk : Bool

/-- Side effects of a construction attempt that the claims observe. -/
structure NewEffects where
  rendererHandles : Option EGLRawHandles := none
  queueInstalled : Bool := false
  socketBound : Bool := false
  loopSpawned : Bool := false
deriving DecidableEq, Repr

/-- The `Wayland` struct; the display, join handle, renderer and state
fields are opaque to the claims, so only `socket_name` is modelled. -/
structure Wayland where
  socket_name : String
deriving DecidableEq, Repr

/-- Model of `Wayland::new`. The once cell `GLOBAL_DESTROY_QUEUE` is process-wide
state, passed in and returned; installing the sender a second time panics
(`OnceCell::set` fails and is unwrapped). Steps in source order:
`get_sk_egl`, `EGLContext::from_raw` + `GlesRenderer::new` on the three
handles, `Display::new`, `mpsc::channel(8)` + cell install,
`bind_auto("wayland", 0..33)`, `start_loop`. Returns the outcome, the
observed effects, and the cell after the call. -/
def Wayland.new (env : Env) (cell : Option Unit) :
    Outcome Wayland × NewEffects × Option Unit :=
  match get_sk_egl env.sk with
  | Except.error e => (Outcome.error e, {}, cell)
  | Except.ok handles =>
    let effRenderer : NewEffects := { rendererHandles := some handles }
    if !env.eglContextOk then (Outcome.error "EGLContext::from_raw failed", effRenderer, cell)
    else if !env.glesRendererOk then (Outcome.error "GlesRenderer::new failed", effRenderer, cell)
    else if !env.displayNewOk then (Outcome.error "Display::new failed", effRenderer, cell)
    else
      match cell with
      | some _ =>
        (Outcome.panic "GLOBAL_DESTROY_QUEUE.set unwrapped on an already-set cell",
          effRenderer, cell)
      | none =>
        let effQueue := { effRenderer with queueInstalled := true }
        match bind_auto "wayland" 33 env.canBind with
        | Except.error e => (Outcome.error e, effQueue, some ())
        | Except.ok name =>
          let effSocket := { effQueue with socketBound := true }
          if !env.startLoopOk then (Outcome.error "start_loop failed", effSocket, some ())
          else (Outcome.ok { socket_name := name }, { effSocket with loopSpawned := true }, some ())

/-- Model of `impl Drop for Wayland`: dropping only aborts the dispatch-loop join handle; the
process-wide once cell is untouched by dropping an instance. -/
def Wayland.drop (w : Wayland) (cell : Option Unit) : Option Unit := cell

/-- C1 counterexample: with one valid surface, the trace of `update` is the
surface buffer upload followed by the client flush, not the flush first as
the claim states. -/
theorem C1_counterexample :
    ¬ (update [0] (Except.ok ())).1 =
        [Action.flushClients, Action.processSurface 0] := by
  decide

/-- C1 (amended): the per-frame `update` performs the buffer-upload pass
over all currently valid surfaces first and flushes the pending outbound
client messages after it. -/
theorem C1_update_upload_then_flush (validSurfaces : List Nat)
    (flushResult : Except String Unit) :
    (update validSurfaces flushResult).1 =
      validSurfaces.map Action.processSurface ++ [Action.flushClients] := by
  unfold update
  cases flushResult <;> rfl

/-- C10: `update` panics exactly when the client flush fails; its only
non-normal exit is that panic, never a returned error. -/
theorem C10_update_flush_panics (validSurfaces : List Nat)
    (flushResult : Except String Unit) :
    (update validSurfaces flushResult).2 = none ↔
      ∃ e, flushResult = Except.error e := by
  unfold update
  cases flushResult <;> simp

/-- C3: the global-destroy queue has capacity exactly 8; a send while 8
requests are pending blocks the producer rather than dropping or erroring,
and once the dispatch loop consumes an entry the send succeeds. -/
theorem C3_queue_backpressure (ch : Channel GlobalId) (g : GlobalId)
    (hcap : ch.capacity = globalDestroyChannel.capacity)
    (hfull : ch.buffer.length = 8) :
    globalDestroyChannel.capacity = 8 ∧
    ch.send g = SendResult.blocked ∧
    ∃ x ch', ch.recv = some (x, ch') ∧
      ∃ ch'', ch'.send g = SendResult.sent ch'' := by
  have hc : ch.capacity = 8 := hcap
  refine ⟨rfl, ?_, ?_⟩
  · unfold Channel.send
    rw [hfull, hc]
    simp
  · match hb : ch.buffer with
    | [] => simp [hb] at hfull
    | x :: rest =>
      refine ⟨x, ⟨ch.capacity, rest⟩, ?_, ?_⟩
      · unfold Channel.recv
        rw [hb]
      · have hr : rest.length = 7 := by
          have := hfull
          rw [hb] at this
          simpa using this
        refine ⟨⟨ch.capacity, rest ++ [g]⟩, ?_⟩
        unfold Channel.send
        simp [hr, hc]

/-- C3 witness: a concrete full queue of 8 pending destroy requests. -/
theorem C3_queue_backpressure_witness :
    globalDestroyChannel.capacity = 8 ∧
    (Channel.mk 8 [0, 1, 2, 3, 4, 5, 6, 7]).send 9 = SendResult.blocked ∧
    ∃ x ch', (Channel.mk 8 [0, 1, 2, 3, 4, 5, 6, 7]).recv = some (x, ch') ∧
      ∃ ch'', ch'.send 9 = SendResult.sent ch'' :=
  C3_queue_backpressure ⟨8, [0, 1, 2, 3, 4, 5, 6, 7]⟩ 9 rfl rfl

/-- Sending a list that fits in the remaining capacity succeeds and appends
it to the buffer in order. -/
theorem Channel.sendAll_of_fits {α : Type} (gs : List α) :
    ∀ (b : List α) (cap : Nat), b.length + gs.length ≤ cap →
      Channel.sendAll ⟨cap, b⟩ gs = some ⟨cap, b ++ gs⟩ := by
  induction gs with
  | nil =>
    intro b cap h
    simp [Channel.sendAll]
  | cons a as ih =>
    intro b cap h
    have hlt : b.length < cap := by
      simp only [List.length_cons] at h
      omega
    have hsend : (Channel.mk cap b).send a = SendResult.sent ⟨cap, b ++ [a]⟩ := by
      unfold Channel.send
      simp [hlt]
    have hfit : (b ++ [a]).length + as.length ≤ cap := by
      simp only [List.length_append, List.length_cons, List.length_nil] at *
      omega
    have hrec := ih (b ++ [a]) cap hfit
    unfold Channel.sendAll
    rw [hsend]
    show (Channel.mk cap (b ++ [a])).sendAll as = some ⟨cap, b ++ a :: as⟩
    rw [hrec]
    simp

/-- Processing the destroy-ready events for an enqueued list removes the
handles from the registry in order and touches nothing else. -/
theorem runLoop_destroyReady (gs : List GlobalId) :
    ∀ s : LoopState,
      runLoop s (gs.map LoopEvent.destroyReady) =
        ({ globals := List.foldl List.erase s.globals gs, clients := s.clients },
          gs.map Action.removeGlobal, none) := by
  induction gs with
  | nil => intro s; rfl
  | cons g gs ih =>
    intro s
    simp only [List.map_cons, runLoop, loopStep, List.foldl_cons]
    rw [ih { globals := s.globals.erase g, clients := s.clients }]
    rfl

/-- C4: requests that fit in the queue are enqueued FIFO, and the dispatch
loop removes each enqueued handle from the registry exactly once, in
enqueue order. -/
theorem C4_destroy_fifo (gs : List GlobalId) (s : LoopState)
    (hlen : gs.length ≤ 8) :
    globalDestroyChannel.sendAll gs = some ⟨8, gs⟩ ∧
    runLoop s (gs.map LoopEvent.destroyReady) =
      ({ globals := List.foldl List.erase s.globals gs, clients := s.clients },
        gs.map Action.removeGlobal, none) ∧
    ∀ g : GlobalId,
      (gs.map Action.removeGlobal).count (Action.removeGlobal g) = gs.count g := by
  refine ⟨?_, runLoop_destroyReady gs s, ?_⟩
  · have h := Channel.sendAll_of_fits gs [] 8 (by simpa using hlen)
    simpa [globalDestroyChannel] using h
  · intro g
    exact List.count_map_of_injective gs Action.removeGlobal
      (fun a b h => by cases h; rfl) g

/-- C4 witness: two destroys enqueued, removed in order, exactly once. -/
theorem C4_destroy_fifo_witness :
    globalDestroyChannel.sendAll [5, 6] = some ⟨8, [5, 6]⟩ ∧
    runLoop ⟨[5, 6, 7], []⟩ ([5, 6].map LoopEvent.destroyReady) =
      (⟨[7], []⟩, [Action.removeGlobal 5, Action.removeGlobal 6], none) ∧
    ([5, 6].map Action.removeGlobal).count (Action.removeGlobal 5) = [5, 6].count 5 := by
  obtain ⟨h1, h2, h3⟩ := C4_destroy_fifo [5, 6] ⟨[5, 6, 7], []⟩ (by decide)
  refine ⟨h1, ?_, h3 5⟩
  rw [h2]
  rfl

/-- The select events of a run of successful accepts. -/
def acceptEvents (cs : List ClientId) : List LoopEvent :=
  cs.map (fun c => LoopEvent.connection (Except.ok c) true)

/-- The expected trace of a run of successful accepts: one client insertion
then one new-client notification per accepted connection. -/
def acceptTrace : List ClientId → List Action
  | [] => []
  | c :: cs => Action.insertClient c :: Action.newClientNotify c :: acceptTrace cs

/-- Processing a run of successful accepts registers the clients in order
and emits the insertion/notification trace. -/
theorem runLoop_acceptEvents (cs : List ClientId) :
    ∀ s : LoopState,
      runLoop s (acceptEvents cs) =
        ({ globals := s.globals, clients := s.clients ++ cs }, acceptTrace cs, none) := by
  induction cs with
  | nil => intro s; simp [acceptEvents, acceptTrace, runLoop]
  | cons c cs ih =>
    intro s
    simp only [acceptEvents, List.map_cons, acceptTrace, runLoop, loopStep, if_pos]
    rw [show (List.map (fun c => LoopEvent.connection (Except.ok c) true) cs) =
      acceptEvents cs from rfl]
    rw [ih { globals := s.globals, clients := s.clients ++ [c] }]
    simp

/-- Each accept run contains exactly one insertion action per occurrence of
a client in the accepted list. -/
theorem acceptTrace_count_insert (cs : List ClientId) (c : ClientId) :
    (acceptTrace cs).count (Action.insertClient c) = cs.count c := by
  induction cs with
  | nil => rfl
  | cons d cs ih =>
    by_cases h : d = c
    · subst h
      simp [acceptTrace, List.count_cons, ih]
    · simp [acceptTrace, List.count_cons, ih, h]

/-- Each accept run contains exactly one notification action per occurrence
of a client in the accepted list. -/
theorem acceptTrace_count_notify (cs : List ClientId) (c : ClientId) :
    (acceptTrace cs).count (Action.newClientNotify c) = cs.count c := by
  induction cs with
  | nil => rfl
  | cons d cs ih =>
    by_cases h : d = c
    · subst h
      simp [acceptTrace, List.count_cons, ih]
    · simp [acceptTrace, List.count_cons, ih, h]

/-- C5: every accepted connection is inserted as exactly one client of the
protocol state and triggers exactly one new-client notification with that
identity — never zero, never more than one of either. -/
theorem C5_accept_exactly_once (cs : List ClientId) (s : LoopState) :
    runLoop s (acceptEvents cs) =
      ({ globals := s.globals, clients := s.clients ++ cs }, acceptTrace cs, none) ∧
    ∀ c : ClientId,
      (acceptTrace cs).count (Action.insertClient c) = cs.count c ∧
      (acceptTrace cs).count (Action.newClientNotify c) = cs.count c :=
  ⟨runLoop_acceptEvents cs s,
    fun c => ⟨acceptTrace_count_insert cs c, acceptTrace_count_notify cs c⟩⟩

/-- A loop run that ended without error, followed by a failing event,
terminates the whole loop with that error; the remaining events are never
processed. -/
theorem runLoop_append_error (es₁ : List LoopEvent) :
    ∀ (s s₁ : LoopState) (tr : List Action) (es₂ : List LoopEvent)
      (e : LoopEvent) (err : String),
      runLoop s es₁ = (s₁, tr, none) → loopStep s₁ e = Except.error err →
      runLoop s (es₁ ++ e :: es₂) = (s₁, tr, some err) := by
  induction es₁ with
  | nil =>
    intro s s₁ tr es₂ e err h₁ h₂
    simp only [runLoop, Prod.mk.injEq] at h₁
    obtain ⟨rfl, rfl, -⟩ := h₁
    simp only [List.nil_append, runLoop, h₂]
  | cons e₀ es ih =>
    intro s s₁ tr es₂ e err h₁ h₂
    cases hs : loopStep s e₀ with
    | error err₀ =>
      simp only [runLoop, hs, Prod.mk.injEq] at h₁
      exact absurd h₁.2.2 (by simp)
    | ok p =>
      obtain ⟨s', as⟩ := p
      rcases hrl : runLoop s' es with ⟨s₂, tr₂, o⟩
      simp only [runLoop, hs, hrl, Prod.mk.injEq] at h₁
      obtain ⟨hA, hB, hC⟩ := h₁
      subst hA
      subst hB
      subst hC
      have hrec := ih s' s₂ tr₂ es₂ e err hrl h₂
      rw [List.cons_append]
      simp only [runLoop, hs]
      rw [hrec]

/-- C8: an error in any branch of the dispatch loop — a failed accept, a
failed client insertion, a failed dispatch round or a failed flush — makes
the loop task return that error and terminate; no later event is processed
and the loop is not restarted. -/
theorem C8_loop_error_terminates (s s₁ : LoopState) (es₁ es₂ : List LoopEvent)
    (e : LoopEvent) (tr : List Action) (err : String)
    (h₁ : runLoop s es₁ = (s₁, tr, none))
    (h₂ : loopStep s₁ e = Except.error err) :
    runLoop s (es₁ ++ e :: es₂) = (s₁, tr, some err) ∧
    ∀ (msg : String) (c : ClientId),
      loopStep s₁ (LoopEvent.connection (Except.error msg) true) = Except.error msg ∧
      loopStep s₁ (LoopEvent.connection (Except.ok c) false) =
        Except.error "insert_client failed" ∧
      loopStep s₁ (LoopEvent.dispatchReady true false true) =
        Except.error "dispatch_clients failed" ∧
      loopStep s₁ (LoopEvent.dispatchReady true true false) =
        Except.error "flush_clients failed" :=
  ⟨runLoop_append_error es₁ s s₁ tr es₂ e err h₁ h₂,
    fun msg c => ⟨rfl, rfl, rfl, rfl⟩⟩

/-- C8 witness: a destroy is processed, then a failed flush terminates the
loop; the trailing destroy event is never processed. -/
theorem C8_loop_error_terminates_witness :
    runLoop ⟨[1], []⟩ ([LoopEvent.destroyReady 1] ++
        LoopEvent.dispatchReady true true false :: [LoopEvent.destroyReady 2]) =
      (⟨[], []⟩, [Action.removeGlobal 1], some "flush_clients failed") ∧
    loopStep ⟨[], []⟩ (LoopEvent.connection (Except.error "accept failed") true) =
      Except.error "accept failed" := by
  obtain ⟨h1, h2⟩ := C8_loop_error_terminates ⟨[1], []⟩ ⟨[], []⟩
    [LoopEvent.destroyReady 1] [LoopEvent.destroyReady 2]
    (LoopEvent.dispatchReady true true false) [Action.removeGlobal 1]
    "flush_clients failed" (by rfl) (by rfl)
  exact ⟨h1, (h2 "accept failed" 0).1⟩

/-- Closed form of the serial sequence: the `i`-th returned value is the
start value plus `i`, modulo `2^32`. -/
theorem CounterU32.serials_eq_map (n : Nat) :
    ∀ v : Nat, v < u32Mod →
      CounterU32.serials ⟨v⟩ n =
        (List.range n).map (fun i => (v + i) % u32Mod) := by
  induction n with
  | zero => intro v hv; rfl
  | succ n ih =>
    intro v hv
    have hm : (0 : Nat) < u32Mod := by norm_num [u32Mod]
    have h0 : CounterU32.serials ⟨v⟩ (n + 1) =
        v :: CounterU32.serials ⟨(v + 1) % u32Mod⟩ n := rfl
    rw [h0, ih ((v + 1) % u32Mod) (Nat.mod_lt _ hm), List.range_succ_eq_map,
      List.map_cons, List.map_map]
    have hfun : ((fun i => (v + i) % u32Mod) ∘ Nat.succ) =
        fun i => ((v + 1) % u32Mod + i) % u32Mod := by
      funext i
      simp only [Function.comp]
      rw [Nat.mod_add_mod]
      congr 1
      omega
    rw [hfun]
    congr 1
    simp [Nat.mod_eq_of_lt hv]

/-- C6: the serial counter fetch-and-increment yields pairwise distinct
values over any run of at most `2^32` calls (no repeat before wraparound),
and each successive value is the previous one plus one modulo `2^32`
(wraparound being ordinary behaviour, not an error). -/
theorem C6_serials_distinct_monotone (v n : Nat) (hv : v < u32Mod)
    (hn : n ≤ u32Mod) :
    (CounterU32.serials ⟨v⟩ n).Nodup ∧
    ∀ i, i + 1 < n →
      (CounterU32.serials ⟨v⟩ n).getD (i + 1) 0 =
        ((CounterU32.serials ⟨v⟩ n).getD i 0 + 1) % u32Mod := by
  rw [CounterU32.serials_eq_map n v hv]
  constructor
  · refine List.Nodup.map_on ?_ (List.nodup_range n)
    intro i hi j hj hij
    rw [List.mem_range] at hi hj
    have hmod : i ≡ j [MOD u32Mod] := Nat.ModEq.add_left_cancel' v hij
    have hi' : i < u32Mod := lt_of_lt_of_le hi hn
    have hj' : j < u32Mod := lt_of_lt_of_le hj hn
    have := hmod
    unfold Nat.ModEq at this
    rwa [Nat.mod_eq_of_lt hi', Nat.mod_eq_of_lt hj'] at this
  · intro i hi
    have h1 : ((List.range n).map (fun i => (v + i) % u32Mod)).getD (i + 1) 0 =
        (v + (i + 1)) % u32Mod := by
      rw [List.getD_eq_getElem?_getD, List.getElem?_map, List.getElem?_range hi]
      rfl
    have h2 : ((List.range n).map (fun i => (v + i) % u32Mod)).getD i 0 =
        (v + i) % u32Mod := by
      rw [List.getD_eq_getElem?_getD, List.getElem?_map,
        List.getElem?_range (by omega : i < n)]
      rfl
    rw [h1, h2, Nat.mod_add_mod]
    congr 1

/-- C6 witness: the first four values minted from `SERIAL_COUNTER` are
distinct, and the second equals the first plus one modulo `2^32`. -/
theorem C6_serials_distinct_monotone_witness :
    (CounterU32.serials SERIAL_COUNTER 4).Nodup ∧
    (CounterU32.serials SERIAL_COUNTER 4).getD 1 0 =
      ((CounterU32.serials SERIAL_COUNTER 4).getD 0 0 + 1) % u32Mod := by
  obtain ⟨h1, h2⟩ := C6_serials_distinct_monotone 0 4
    (by norm_num [u32Mod]) (by norm_num [u32Mod])
  exact ⟨h1, h2 0 (by norm_num)⟩

/-- The auto-bind search returns the first candidate that binds. -/
theorem bind_auto_from_of_first (basename : String) (canBind : Nat → Bool) :
    ∀ (fuel start k : Nat), start ≤ k → k < start + fuel → canBind k = true →
      (∀ j, start ≤ j → j < k → canBind j = false) →
      bind_auto_from basename canBind start fuel =
        Except.ok (basename ++ "-" ++ toString k) := by
  intro fuel
  induction fuel with
  | zero =>
    intro start k h1 h2 h3 h4
    omega
  | succ fuel ih =>
    intro start k h1 h2 h3 h4
    by_cases hs : start = k
    · subst hs
      unfold bind_auto_from
      simp [h3]
    · have hcb : canBind start = false := h4 start le_rfl (by omega)
      unfold bind_auto_from
      simp only [hcb, Bool.false_eq_true, if_false]
      exact ih (start + 1) k (by omega) (by omega) h3
        (fun j hj1 hj2 => h4 j (by omega) hj2)

/-- The auto-bind search fails once the whole range failed to bind. -/
theorem bind_auto_from_of_none (basename : String) (canBind : Nat → Bool) :
    ∀ (fuel start : Nat),
      (∀ j, start ≤ j → j < start + fuel → canBind j = false) →
      bind_auto_from basename canBind start fuel =
        Except.error "exhausted socket name range" := by
  intro fuel
  induction fuel with
  | zero => intro start h; rfl
  | succ fuel ih =>
    intro start h
    have hcb : canBind start = false := h start le_rfl (by omega)
    unfold bind_auto_from
    simp only [hcb, Bool.false_eq_true, if_false]
    exact ih (start + 1) (fun j hj1 hj2 => h j (by omega) (by omega))

/-- When the host checks pass and the socket binds, construction returns
the bound socket name. -/
theorem Wayland.new_ok_of_bind (env : Env) (name : String)
    (hb : env.sk.backend_graphics = BackendGraphics.opengles_egl)
    (h1 : env.eglContextOk = true) (h2 : env.glesRendererOk = true)
    (h3 : env.displayNewOk = true) (h4 : env.startLoopOk = true)
    (hbind : bind_auto "wayland" 33 env.canBind = Except.ok name) :
    (Wayland.new env none).1 = Outcome.ok { socket_name := name } := by
  unfold Wayland.new get_sk_egl
  rw [if_pos hb]
  simp [h1, h2, h3, h4, hbind]

/-- When the host checks pass but no socket candidate binds, construction
fails with the bind error and never spawns the loop. -/
theorem Wayland.new_error_of_bind_fail (env : Env) (e : String)
    (hb : env.sk.backend_graphics = BackendGraphics.opengles_egl)
    (h1 : env.eglContextOk = true) (h2 : env.glesRendererOk = true)
    (h3 : env.displayNewOk = true)
    (hbind : bind_auto "wayland" 33 env.canBind = Except.error e) :
    (Wayland.new env none).1 = Outcome.error e ∧
    (Wayland.new env none).2.1.loopSpawned = false := by
  unfold Wayland.new get_sk_egl
  rw [if_pos hb]
  simp [h1, h2, h3, hbind]

/-- When the host checks pass but the once cell already holds a sender,
construction panics at the cell installation. -/
theorem Wayland.new_panic_of_cell_set (env : Env) (u : Unit)
    (hb : env.sk.backend_graphics = BackendGraphics.opengles_egl)
    (h1 : env.eglContextOk = true) (h2 : env.glesRendererOk = true)
    (h3 : env.displayNewOk = true) :
    (Wayland.new env (some u)).1 =
      Outcome.panic "GLOBAL_DESTROY_QUEUE.set unwrapped on an already-set cell" := by
  unfold Wayland.new get_sk_egl
  rw [if_pos hb]
  simp [h1, h2, h3]

/-- A construction that returns a value has installed the sender into the
once cell. -/
theorem Wayland.new_ok_cell (env : Env) (w : Wayland) :
    (Wayland.new env none).1 = Outcome.ok w →
    (Wayland.new env none).2.2 = some () := by
  unfold Wayland.new
  cases get_sk_egl env.sk with
  | error e => exact fun h => Outcome.noConfusion h
  | ok handles =>
    cases env.eglContextOk with
    | false => exact fun h => Outcome.noConfusion h
    | true =>
      cases env.glesRendererOk with
      | false => exact fun h => Outcome.noConfusion h
      | true =>
        cases env.displayNewOk with
        | false => exact fun h => Outcome.noConfusion h
        | true =>
          cases bind_auto "wayland" 33 env.canBind with
          | error e => exact fun h => rfl
          | ok name =>
            cases env.startLoopOk with
            | false => exact fun h => rfl
            | true => exact fun h => rfl

/-- C2: construction checks the backend family first: a non-EGL backend
yields the configuration-mismatch error with no socket bound and no
dispatch loop spawned, while an EGL backend has its three native handles
read and handed to the shared-context renderer construction. -/
theorem C2_backend_gate (env : Env) (cell : Option Unit) :
    (env.sk.backend_graphics ≠ BackendGraphics.opengles_egl →
      (Wayland.new env cell).1 =
        Outcome.error "StereoKit is not running using EGL!" ∧
      (Wayland.new env cell).2.1.socketBound = false ∧
      (Wayland.new env cell).2.1.loopSpawned = false) ∧
    (env.sk.backend_graphics = BackendGraphics.opengles_egl →
      (Wayland.new env cell).2.1.rendererHandles =
        some { display := env.sk.egl_display, config := env.sk.egl_config, context := env.sk.egl_context }) := by
  constructor
  · intro h
    unfold Wayland.new get_sk_egl
    rw [if_neg h]
    exact ⟨rfl, rfl, rfl⟩
  · intro h
    unfold Wayland.new get_sk_egl
    rw [if_pos h]
    cases env.eglContextOk with
    | false => rfl
    | true =>
      cases env.glesRendererOk with
      | false => rfl
      | true =>
        cases env.displayNewOk with
        | false => rfl
        | true =>
          cases cell with
          | some u => rfl
          | none =>
            cases bind_auto "wayland" 33 env.canBind with
            | error e => rfl
            | ok name =>
              cases env.startLoopOk with
              | false => rfl
              | true => rfl

/-- A non-EGL host environment, concrete for witnesses. -/
def envD3D : Env :=
  { sk := { backend_graphics := BackendGraphics.d3d11, egl_display := 1, egl_config := 2, egl_context := 3 },
    eglContextOk := true, glesRendererOk := true, displayNewOk := true,
    canBind := fun _ => true, startLoopOk := true }

/-- An EGL host environment where every socket candidate binds. -/
def envEgl : Env :=
  { envD3D with sk := { backend_graphics := BackendGraphics.opengles_egl, egl_display := 1, egl_config := 2, egl_context := 3 } }

/-- An EGL host environment where the first free socket candidate is 2. -/
def envBind2 : Env := { envEgl with canBind := fun i => decide (2 ≤ i) }

/-- An EGL host environment where no socket candidate binds. -/
def envNoBind : Env := { envEgl with canBind := fun _ => false }

/-- C2 witness: a D3D11 host is rejected before any effect; an EGL host has
its handles 1, 2, 3 given to the renderer. -/
theorem C2_backend_gate_witness :
    ((Wayland.new envD3D none).1 =
        Outcome.error "StereoKit is not running using EGL!" ∧
      (Wayland.new envD3D none).2.1.socketBound = false ∧
      (Wayland.new envD3D none).2.1.loopSpawned = false) ∧
    (Wayland.new envEgl none).2.1.rendererHandles =
      some { display := 1, config := 2, context := 3 } :=
  ⟨(C2_backend_gate envD3D none).1 (by decide),
    (C2_backend_gate envEgl none).2 rfl⟩

/-- C7: under a valid EGL host, construction binds the socket by trying
candidates wayland-i in order: it reports the first candidate that binds,
reports wayland-0 when candidate 0 is free, and fails without spawning the
dispatch loop when all 33 candidates fail to bind. -/
theorem C7_socket_autobind (env : Env)
    (hb : env.sk.backend_graphics = BackendGraphics.opengles_egl)
    (h1 : env.eglContextOk = true) (h2 : env.glesRendererOk = true)
    (h3 : env.displayNewOk = true) (h4 : env.startLoopOk = true) :
    (∀ k, k < 33 → env.canBind k = true →
      (∀ j, j < k → env.canBind j = false) →
      (Wayland.new env none).1 =
        Outcome.ok { socket_name := "wayland-" ++ toString k }) ∧
    (env.canBind 0 = true →
      (Wayland.new env none).1 = Outcome.ok { socket_name := "wayland-0" }) ∧
    ((∀ j, j < 33 → env.canBind j = false) →
      (Wayland.new env none).1 = Outcome.error "exhausted socket name range" ∧
      (Wayland.new env none).2.1.loopSpawned = false) := by
  have hfirst : ∀ k, k < 33 → env.canBind k = true →
      (∀ j, j < k → env.canBind j = false) →
      (Wayland.new env none).1 =
        Outcome.ok { socket_name := "wayland-" ++ toString k } := by
    intro k hk hcb hmin
    have hbind : bind_auto "wayland" 33 env.canBind =
        Except.ok ("wayland" ++ "-" ++ toString k) :=
      bind_auto_from_of_first "wayland" env.canBind 33 0 k (Nat.zero_le k)
        (by omega) hcb (fun j hj1 hj2 => hmin j hj2)
    exact Wayland.new_ok_of_bind env ("wayland" ++ "-" ++ toString k)
      hb h1 h2 h3 h4 hbind
  refine ⟨hfirst, ?_, ?_⟩
  · intro h0
    exact hfirst 0 (by omega) h0 (fun j hj => absurd hj (by omega))
  · intro hall
    have hbind : bind_auto "wayland" 33 env.canBind =
        Except.error "exhausted socket name range" :=
      bind_auto_from_of_none "wayland" env.canBind 33 0
        (fun j hj1 hj2 => hall j (by omega))
    exact Wayland.new_error_of_bind_fail env "exhausted socket name range"
      hb h1 h2 h3 hbind

/-- C7 witness: with only candidate 2 free the name is wayland-2, with
candidate 0 free it is wayland-0, and with no free candidate construction
fails without spawning the loop. -/
theorem C7_socket_autobind_witness :
    (Wayland.new envBind2 none).1 = Outcome.ok { socket_name := "wayland-2" } ∧
    (Wayland.new envEgl none).1 = Outcome.ok { socket_name := "wayland-0" } ∧
    (Wayland.new envNoBind none).1 =
      Outcome.error "exhausted socket name range" ∧
    (Wayland.new envNoBind none).2.1.loopSpawned = false := by
  refine ⟨?_, ?_, ?_⟩
  · exact (C7_socket_autobind envBind2 rfl rfl rfl rfl rfl).1 2 (by omega)
      (by decide) (by decide)
  · exact (C7_socket_autobind envEgl rfl rfl rfl rfl rfl).2.1 rfl
  · exact (C7_socket_autobind envNoBind rfl rfl rfl rfl rfl).2.2 (by decide)

/-- C9: a construction that returns a server has installed the sender into
the process-wide once cell, and a second construction in the same process
— even after the first instance was dropped, which only aborts the loop —
panics when installing the sender into the already-set cell. -/
theorem C9_second_new_panics (env₁ env₂ : Env) (w : Wayland)
    (h₁ : (Wayland.new env₁ none).1 = Outcome.ok w)
    (hb : env₂.sk.backend_graphics = BackendGraphics.opengles_egl)
    (h1 : env₂.eglContextOk = true) (h2 : env₂.glesRendererOk = true)
    (h3 : env₂.displayNewOk = true) :
    (Wayland.new env₁ none).2.2 = some () ∧
    (Wayland.new env₂ (Wayland.drop w (Wayland.new env₁ none).2.2)).1 =
      Outcome.panic "GLOBAL_DESTROY_QUEUE.set unwrapped on an already-set cell" := by
  have hcell := Wayland.new_ok_cell env₁ w h₁
  refine ⟨hcell, ?_⟩
  rw [Wayland.drop, hcell]
  exact Wayland.new_panic_of_cell_set env₂ () hb h1 h2 h3

/-- C9 witness: construct once against the all-binding EGL host, then a
second construction against another EGL host panics. -/
theorem C9_second_new_panics_witness :
    (Wayland.new envEgl none).2.2 = some () ∧
    (Wayland.new envBind2 (Wayland.drop { socket_name := "wayland-0" }
        (Wayland.new envEgl none).2.2)).1 =
      Outcome.panic "GLOBAL_DESTROY_QUEUE.set unwrapped on an already-set cell" :=
  C9_second_new_panics envEgl envBind2 { socket_name := "wayland-0" }
    (by decide) rfl rfl rfl rfl

end Stardust
